import Mathlib

/-!
A shallow embedding of the cube-robot physics engine (physics_engine.js) over
exact rationals.  JavaScript floating point numbers are idealised as `ℚ`; the
irrational angle constants produced by `THREE.MathUtils.degToRad` (45° and 90°
in radians) and the transcendental functions `Math.sin` / `Math.cos` are
abstracted into a `MathEnv` record.  External per-frame inputs (`Math.random`,
the two DOM slider values) are taken as explicit `FrameInput` arguments, so
each engine operation is a pure state transformer on `cube_robot` values.
-/

set_option maxRecDepth 8000

namespace PhysicsEngine

/-- Three-component vector of exact rationals, standing in for `THREE.Vector3`. -/
structure Vec3 where
  x : ℚ
  y : ℚ
  z : ℚ
deriving DecidableEq

def Vec3.zero : Vec3 := ⟨0, 0, 0⟩

instance : Add Vec3 := ⟨fun a b => ⟨a.x + b.x, a.y + b.y, a.z + b.z⟩⟩

theorem Vec3.add_def (a b : Vec3) :
    a + b = ⟨a.x + b.x, a.y + b.y, a.z + b.z⟩ := rfl

/-- `THREE.Vector3.multiplyScalar`. -/
def Vec3.smul (v : Vec3) (s : ℚ) : Vec3 := ⟨v.x * s, v.y * s, v.z * s⟩

/-- `THREE.Vector3.divideScalar`.  JavaScript division by zero yields
Infinity; here rational division is total with `q / 0 = 0`. -/
def Vec3.divScalar (v : Vec3) (s : ℚ) : Vec3 := ⟨v.x / s, v.y / s, v.z / s⟩

/-- Axis-aligned box, standing in for `THREE.Box3`. -/
structure Box3 where
  min : Vec3
  max : Vec3
deriving DecidableEq

/-- Modelled from the spec: `THREE.Box3.intersectsBox` is external library
code not present in this repository; per §4.3 it is the closed-interval AABB
overlap test on all three axes. -/
def Box3.Intersects (a b : Box3) : Prop :=
  a.min.x ≤ b.max.x ∧ b.min.x ≤ a.max.x ∧
  a.min.y ≤ b.max.y ∧ b.min.y ≤ a.max.y ∧
  a.min.z ≤ b.max.z ∧ b.min.z ≤ a.max.z

instance (a b : Box3) : Decidable (a.Intersects b) := by
  unfold Box3.Intersects; infer_instance

theorem Box3.Intersects.symm {a b : Box3} (h : a.Intersects b) : b.Intersects a := by
  obtain ⟨h1, h2, h3, h4, h5, h6⟩ := h
  exact ⟨h2, h1, h4, h3, h6, h5⟩

/-- Abstraction of the irrational angle constants and trigonometric functions
used by the engine: `deg45` stands for `THREE.MathUtils.degToRad(45)`,
`deg90` for `THREE.MathUtils.degToRad(90)`, and `sin` / `cos` for
`Math.sin` / `Math.cos`. -/
structure MathEnv where
  deg45 : ℚ
  deg90 : ℚ
  sin : ℚ → ℚ
  cos : ℚ → ℚ

/-- External values read during one physics step: `Math.random()` and the two
DOM slider values `piston_output` and `mass`. -/
structure FrameInput where
  random : ℚ
  piston_output_value : ℚ
  mass_value : ℚ

def GRAVITY_ACCELERATION : ℚ := 49 / 5

/-- The state of one `cube_robot` instance: every field of the class that the
engine logic reads or writes.  `cube_position` / `cube_rotation` are
`this.cube.position` / `this.cube.rotation` (Euler angles),
`piston_bottom_rotation` / `piston_bottom_position` are the corresponding
fields of `this.piston_bottom`, `mass` is `this.cube.mass`, and `index` is
the movement-direction index `this.index`. -/
structure cube_robot where
  time_step : ℚ
  tipping_point_angle : ℚ
  full_rotation : ℚ
  rest_angle : ℚ
  angle : ℚ
  piston_output_force : Vec3
  angular_velocity : Vec3
  translational_velocity : Vec3
  gravity : Vec3
  cube_position : Vec3
  cube_rotation : Vec3
  mass : ℚ
  bounding_box : Box3
  robot_size : Vec3
  position_in_world : Vec3
  custom_bounding_box : Box3
  piston_size : ℚ
  piston_face_location : ℚ
  axis_rotation_distance : ℚ
  piston_bottom_rotation : Vec3
  piston_bottom_position : Vec3
  random_value : ℚ
  user_piston_force : ℚ
  torque_grav : Vec3
  torque : Vec3
  translation : Vec3
  moment_of_inertia : ℚ
  angular_acceleration : Vec3
  translational_acceleration : Vec3
  index : ℤ
deriving DecidableEq

/-- Modelled from the spec: `THREE.Box3.setFromObject` is external library
code not present in this repository; per §3 the bounding box is an
axis-aligned box recomputed from the body's position and fixed half-extents. -/
def box_from_object (position half : Vec3) : Box3 :=
  ⟨⟨position.x - half.x, position.y - half.y, position.z - half.z⟩,
   ⟨position.x + half.x, position.y + half.y, position.z + half.z⟩⟩

/-- The `cube_robot` constructor.  The cube geometry is a 2×2×2 box placed at
`(x, y, z)`; the initial bounding box is taken before the pistons are added,
so `getSize` yields `(2, 2, 2)`. -/
def cube_robot.init (env : MathEnv) (x y z : ℚ) : cube_robot :=
  let size : Vec3 := ⟨2, 2, 2⟩
  let piston_size : ℚ := size.x / 2 - 1/10
  let piston_face_location : ℚ := piston_size - 8/10
  { time_step := 1/360
    tipping_point_angle := env.deg45
    full_rotation := env.deg90
    rest_angle := 0
    angle := env.deg45
    piston_output_force := Vec3.zero
    angular_velocity := Vec3.zero
    translational_velocity := Vec3.zero
    gravity := ⟨0, GRAVITY_ACCELERATION * 10, 0⟩
    cube_position := ⟨x, y, z⟩
    cube_rotation := Vec3.zero
    mass := 0
    bounding_box := box_from_object ⟨x, y, z⟩ (size.smul (1/2))
    robot_size := size
    position_in_world := Vec3.zero
    custom_bounding_box := ⟨⟨x - 1, y - 1, z - 1⟩, ⟨x + 1, y + 1, z + 1⟩⟩
    piston_size := piston_size
    piston_face_location := piston_face_location
    axis_rotation_distance := (size.x / 2) / 100
    piston_bottom_rotation := Vec3.zero
    piston_bottom_position := ⟨0, -piston_face_location, 0⟩
    random_value := 0
    user_piston_force := 0
    torque_grav := Vec3.zero
    torque := Vec3.zero
    translation := Vec3.zero
    moment_of_inertia := 0
    angular_acceleration := Vec3.zero
    translational_acceleration := Vec3.zero
    index := 0 }

/-- `update_bounding_box`: delegates to `setFromObject` (see
`box_from_object`), recomputing the box from the current position and the
fixed half-extents `robot_size / 2`. -/
def update_bounding_box (r : cube_robot) : cube_robot :=
  { r with bounding_box := box_from_object r.cube_position (r.robot_size.smul (1/2)) }

/-- `update_custom_bounding_box`, translated directly from the source. -/
def update_custom_bounding_box (r : cube_robot) : cube_robot :=
  { r with custom_bounding_box :=
      ⟨⟨r.cube_position.x - r.robot_size.x / 2,
        r.cube_position.y - r.robot_size.y / 2,
        r.cube_position.z - r.robot_size.z / 2⟩,
       ⟨r.cube_position.x + r.robot_size.x / 2,
        r.cube_position.y + r.robot_size.y / 2,
        r.cube_position.z + r.robot_size.z / 2⟩⟩ }

/-- `_calculate_physics`, translated directly from the source.  The DOM reads
and `Math.random()` become the `FrameInput` argument. -/
def calculate_physics (env : MathEnv) (inp : FrameInput) (r : cube_robot) : cube_robot :=
  let random_value := inp.random * (1/10) - 9/100
  let user_piston_force := inp.piston_output_value / 100
  let mass := inp.mass_value / 1000
  let torque_grav : Vec3 :=
    ⟨0, -mass * r.axis_rotation_distance * GRAVITY_ACCELERATION * env.sin r.cube_rotation.x, 0⟩
  let torque : Vec3 :=
    ⟨user_piston_force * r.axis_rotation_distance * env.sin r.angle, 0,
     user_piston_force * r.axis_rotation_distance * env.sin r.angle⟩
  let translation : Vec3 :=
    ⟨user_piston_force * env.cos r.angle, 0, user_piston_force * env.cos r.angle⟩
  let moment_of_inertia := (1/6) * mass * ((r.robot_size.x / 100) * (r.robot_size.x / 100))
  let angular_acceleration := torque.divScalar moment_of_inertia
  let translational_acceleration := translation.divScalar mass
  { r with
    random_value := random_value
    user_piston_force := user_piston_force
    mass := mass
    torque_grav := torque_grav
    torque := torque
    translation := translation
    moment_of_inertia := moment_of_inertia
    angular_acceleration := angular_acceleration
    translational_acceleration := translational_acceleration
    angular_velocity := r.angular_velocity + angular_acceleration.smul r.time_step
    translational_velocity := r.translational_velocity + translational_acceleration.smul r.time_step }

/-- First integration step of `move_away`: rotate about x by
`-angular_velocity.z * dt` and translate along z by `-translational_velocity.z`. -/
def integrate_away (r : cube_robot) : cube_robot :=
  { r with
    cube_rotation := { r.cube_rotation with x := r.cube_rotation.x - r.angular_velocity.z * r.time_step }
    cube_position := { r.cube_position with z := r.cube_position.z - r.translational_velocity.z } }

/-- Piston behaviour of `move_away` below the tipping threshold. -/
def piston_step_away (r : cube_robot) : cube_robot :=
  if |r.cube_rotation.x| < r.tipping_point_angle then
    update_bounding_box
      { r with
        piston_bottom_rotation := { r.piston_bottom_rotation with x := r.angle }
        piston_bottom_position :=
          { r.piston_bottom_position with
            y := r.piston_bottom_position.y - r.angular_velocity.z * r.time_step
            z := r.piston_bottom_position.z - r.translational_velocity.z * r.time_step } }
  else r

/-- Tipping-point block of `move_away`: add the gravity contribution to the
angular velocity, then rotate by the y component of the updated velocity and
translate along z. -/
def tipping_step_away (r : cube_robot) : cube_robot :=
  if r.tipping_point_angle ≤ |r.cube_rotation.x| then
    let av := r.angular_velocity + r.gravity.smul r.time_step
    update_bounding_box
      { r with
        angular_velocity := av
        cube_rotation := { r.cube_rotation with x := r.cube_rotation.x - av.y * r.time_step }
        cube_position := { r.cube_position with z := r.cube_position.z - r.translational_velocity.z } }
  else r

/-- Landing block shared by `move_away` and `move_closer` (primary axis x). -/
def landing_step_x (r : cube_robot) : cube_robot :=
  if r.full_rotation ≤ |r.cube_rotation.x| then
    update_bounding_box
      { r with
        angular_velocity := Vec3.zero
        translational_velocity := Vec3.zero
        cube_rotation := { r.cube_rotation with x := 0, y := r.random_value }
        piston_bottom_position := { r.piston_bottom_position with y := -r.piston_face_location } }
  else r

/-- `this.cube.getWorldPosition(this.position_in_world)`: the cube is a direct
child of the scene, so its world position is its local position. -/
def world_sync (r : cube_robot) : cube_robot :=
  { r with position_in_world := r.cube_position }

/-- Everything `move_away` does before its landing check. -/
def move_away_core (env : MathEnv) (inp : FrameInput) (r : cube_robot) : cube_robot :=
  tipping_step_away (piston_step_away (update_bounding_box (integrate_away (calculate_physics env inp r))))

def move_away (env : MathEnv) (inp : FrameInput) (r : cube_robot) : cube_robot :=
  world_sync (landing_step_x (move_away_core env inp r))

/-- First integration step of `move_closer`. -/
def integrate_closer (r : cube_robot) : cube_robot :=
  { r with
    cube_rotation := { r.cube_rotation with x := r.cube_rotation.x + r.angular_velocity.z * r.time_step }
    cube_position := { r.cube_position with z := r.cube_position.z + r.translational_velocity.z } }

/-- Piston behaviour of `move_closer` below the tipping threshold. -/
def piston_step_closer (r : cube_robot) : cube_robot :=
  if |r.cube_rotation.x| < r.tipping_point_angle then
    update_bounding_box
      { r with
        piston_bottom_rotation := { r.piston_bottom_rotation with x := -r.angle }
        piston_bottom_position :=
          { r.piston_bottom_position with
            y := r.piston_bottom_position.y - r.angular_velocity.z * r.time_step
            z := r.piston_bottom_position.z + r.translational_velocity.z * r.time_step } }
  else r

/-- Tipping-point block of `move_closer`. -/
def tipping_step_closer (r : cube_robot) : cube_robot :=
  if r.tipping_point_angle ≤ |r.cube_rotation.x| then
    let av := r.angular_velocity + r.gravity.smul r.time_step
    update_bounding_box
      { r with
        angular_velocity := av
        cube_rotation := { r.cube_rotation with x := r.cube_rotation.x + av.y * r.time_step }
        cube_position := { r.cube_position with z := r.cube_position.z + r.translational_velocity.z } }
  else r

/-- Everything `move_closer` does before its landing check. -/
def move_closer_core (env : MathEnv) (inp : FrameInput) (r : cube_robot) : cube_robot :=
  tipping_step_closer (piston_step_closer (update_bounding_box (integrate_closer (calculate_physics env inp r))))

def move_closer (env : MathEnv) (inp : FrameInput) (r : cube_robot) : cube_robot :=
  world_sync (landing_step_x (move_closer_core env inp r))

/-- First integration step of `move_left`. -/
def integrate_left (r : cube_robot) : cube_robot :=
  { r with
    cube_rotation := { r.cube_rotation with z := r.cube_rotation.z + r.angular_velocity.x * r.time_step }
    cube_position := { r.cube_position with x := r.cube_position.x - r.translational_velocity.x } }

/-- Piston behaviour of `move_left` below the tipping threshold. -/
def piston_step_left (r : cube_robot) : cube_robot :=
  if |r.cube_rotation.z| < r.tipping_point_angle then
    update_bounding_box
      { r with
        piston_bottom_rotation := { r.piston_bottom_rotation with z := -r.angle }
        piston_bottom_position :=
          { r.piston_bottom_position with
            y := r.piston_bottom_position.y - r.angular_velocity.x * r.time_step
            x := r.piston_bottom_position.x - r.translational_velocity.x * r.time_step } }
  else r

/-- Tipping-point block of `move_left`: add the gravity contribution to the
angular velocity, then rotate by the x component of the updated velocity and
translate along x. -/
def tipping_step_left (r : cube_robot) : cube_robot :=
  if r.tipping_point_angle ≤ |r.cube_rotation.z| then
    let av := r.angular_velocity + r.gravity.smul r.time_step
    update_bounding_box
      { r with
        angular_velocity := av
        cube_rotation := { r.cube_rotation with z := r.cube_rotation.z + av.x * r.time_step }
        cube_position := { r.cube_position with x := r.cube_position.x - r.translational_velocity.x } }
  else r

/-- Landing block shared by `move_left` and `move_right` (primary axis z). -/
def landing_step_z (r : cube_robot) : cube_robot :=
  if r.full_rotation ≤ |r.cube_rotation.z| then
    update_bounding_box
      { r with
        angular_velocity := Vec3.zero
        translational_velocity := Vec3.zero
        cube_rotation := { r.cube_rotation with z := 0, y := r.random_value }
        piston_bottom_position := { r.piston_bottom_position with y := -r.piston_face_location } }
  else r

/-- Everything `move_left` does before its landing check. -/
def move_left_core (env : MathEnv) (inp : FrameInput) (r : cube_robot) : cube_robot :=
  tipping_step_left (piston_step_left (update_bounding_box (integrate_left (calculate_physics env inp r))))

def move_left (env : MathEnv) (inp : FrameInput) (r : cube_robot) : cube_robot :=
  world_sync (landing_step_z (move_left_core env inp r))

/-- First integration step of `move_right`. -/
def integrate_right (r : cube_robot) : cube_robot :=
  { r with
    cube_rotation := { r.cube_rotation with z := r.cube_rotation.z - r.angular_velocity.x * r.time_step }
    cube_position := { r.cube_position with x := r.cube_position.x + r.translational_velocity.x } }

/-- Piston behaviour of `move_right` below the tipping threshold. -/
def piston_step_right (r : cube_robot) : cube_robot :=
  if |r.cube_rotation.z| < r.tipping_point_angle then
    update_bounding_box
      { r with
        piston_bottom_rotation := { r.piston_bottom_rotation with z := r.angle }
        piston_bottom_position :=
          { r.piston_bottom_position with
            y := r.piston_bottom_position.y - r.angular_velocity.x * r.time_step
            x := r.piston_bottom_position.x - r.translational_velocity.x * r.time_step } }
  else r

/-- Tipping-point block of `move_right`. -/
def tipping_step_right (r : cube_robot) : cube_robot :=
  if r.tipping_point_angle ≤ |r.cube_rotation.z| then
    let av := r.angular_velocity + r.gravity.smul r.time_step
    update_bounding_box
      { r with
        angular_velocity := av
        cube_rotation := { r.cube_rotation with z := r.cube_rotation.z - av.x * r.time_step }
        cube_position := { r.cube_position with x := r.cube_position.x + r.translational_velocity.x } }
  else r

/-- Everything `move_right` does before its landing check. -/
def move_right_core (env : MathEnv) (inp : FrameInput) (r : cube_robot) : cube_robot :=
  tipping_step_right (piston_step_right (update_bounding_box (integrate_right (calculate_physics env inp r))))

def move_right (env : MathEnv) (inp : FrameInput) (r : cube_robot) : cube_robot :=
  world_sync (landing_step_z (move_right_core env inp r))

/-- `update_robot_index`, translated directly from the source. -/
def update_robot_index (r : cube_robot) : cube_robot :=
  if r.index = 1 then { r with index := 2 }
  else if r.index = 2 then { r with index := 1 }
  else if r.index = 3 then { r with index := 4 }
  else if r.index = 4 then { r with index := 3 }
  else r

/-- `update_piston`, translated directly from the source. -/
def update_piston (r : cube_robot) : cube_robot :=
  if r.index = 1 ∨ r.index = 2 then
    { r with
      piston_bottom_rotation := { r.piston_bottom_rotation with x := r.cube_rotation.x }
      piston_bottom_position := { r.piston_bottom_position with y := -r.piston_face_location } }
  else if r.index = 3 ∨ r.index = 4 then
    { r with
      piston_bottom_rotation := { r.piston_bottom_rotation with x := -r.cube_rotation.x }
      piston_bottom_position := { r.piston_bottom_position with y := r.piston_face_location } }
  else r

/-- The boundary test of `collision_detection`: true when the stored world
position leaves the ±20 square on x or z. -/
def out_of_bounds (r : cube_robot) : Prop :=
  r.position_in_world.x < -20 ∨ 20 < r.position_in_world.x ∨
  r.position_in_world.z < -20 ∨ 20 < r.position_in_world.z

instance (r : cube_robot) : Decidable (out_of_bounds r) := by
  unfold out_of_bounds; infer_instance

/-- Boundary response applied to each robot at the top of the outer loop. -/
def boundary_step (r : cube_robot) : cube_robot :=
  if out_of_bounds r then update_piston (update_robot_index r) else r

/-- Pair response of `collision_detection`: when the boxes intersect, both
robots get `update_robot_index` followed by `update_piston`. -/
def collide_pair (a b : cube_robot) : cube_robot × cube_robot :=
  if a.bounding_box.Intersects b.bounding_box then
    (update_piston (update_robot_index a), update_piston (update_robot_index b))
  else (a, b)

/-- Inner loop of `collision_detection`: robot `a` (at position `i`) is
paired against every later robot, carrying `a`'s updates across iterations. -/
def inner_loop (a : cube_robot) : List cube_robot → cube_robot × List cube_robot
  | [] => (a, [])
  | b :: tl =>
    let p := collide_pair a b
    let q := inner_loop p.1 tl
    (q.1, p.2 :: q.2)

/-- Outer loop of `collision_detection`, indexed by the number of remaining
iterations (the loop runs once per array element; `inner_loop` preserves the
length of the remainder). -/
def collision_detection_aux : ℕ → List cube_robot → List cube_robot
  | 0, l => l
  | _ + 1, [] => []
  | n + 1, a :: tl =>
    let a1 := boundary_step a
    let q := inner_loop a1 tl
    q.1 :: collision_detection_aux n q.2

/-- `collision_detection`, translated from the source: one pass of the
boundary check plus the O(n²) pairwise test, with in-place updates carried
through the rest of the pass. -/
def collision_detection (l : List cube_robot) : List cube_robot :=
  collision_detection_aux l.length l

/-- The `switch` of `assign_initial_direction`, dispatching one robot to its
movement function by direction index. -/
def dispatch (env : MathEnv) (inp : FrameInput) (r : cube_robot) : cube_robot :=
  if r.index = 1 then move_away env inp r
  else if r.index = 2 then move_closer env inp r
  else if r.index = 3 then move_left env inp r
  else if r.index = 4 then move_right env inp r
  else r

/-- Loop of `assign_initial_direction`; each robot's physics step draws its
own external inputs, indexed by position in the array. -/
def assign_aux (env : MathEnv) (inps : ℕ → FrameInput) : ℕ → List cube_robot → List cube_robot
  | _, [] => []
  | i, r :: tl => dispatch env (inps i) r :: assign_aux env inps (i + 1) tl

def assign_initial_direction (env : MathEnv) (inps : ℕ → FrameInput) (l : List cube_robot) : List cube_robot :=
  assign_aux env inps 0 l

/-- One engine call made by the animation loop: either a collision pass or a
movement dispatch over the whole array. -/
inductive EngineAction where
  | collide : EngineAction
  | moveAll : (ℕ → FrameInput) → EngineAction

def run_action (env : MathEnv) (l : List cube_robot) : EngineAction → List cube_robot
  | .collide => collision_detection l
  | .moveAll inps => assign_initial_direction env inps l

/-- Any finite sequence of collision passes and movement dispatches. -/
def run_actions (env : MathEnv) : List EngineAction → List cube_robot → List cube_robot
  | [], l => l
  | a :: rest, l => run_actions env rest (run_action env l a)

/-- The direction-index domain {1, 2, 3, 4}. -/
def legal_index (i : ℤ) : Prop := i = 1 ∨ i = 2 ∨ i = 3 ∨ i = 4

instance (i : ℤ) : Decidable (legal_index i) := by
  unfold legal_index; infer_instance

def good_indices (l : List cube_robot) : Prop := ∀ r ∈ l, legal_index r.index

instance (l : List cube_robot) : Decidable (good_indices l) :=
  List.decidableBAll _ l

/-- The `movement` array of `initialize_robots`. -/
def movement : List ℤ := [1, 2, 3, 4]

/-- The `while (!valid_pos)` placement loop of `initialize_robots`: candidate
`Math.random()` pairs are drawn from the stream `cands`, mapped into the
36×36 field, and a candidate overlapping an already placed robot is
discarded.  The source retries without bound; `fuel` bounds the attempts and
`none` reports exhaustion. -/
def try_place (env : MathEnv) (cands : ℕ → ℚ × ℚ) (placed : List cube_robot) :
    ℕ → ℕ → Option cube_robot
  | _, 0 => none
  | k, fuel + 1 =>
    let x := (cands k).1 * 36 - 18
    let z := (cands k).2 * 36 - 18
    let robot := cube_robot.init env x (13/10) z
    if placed.any (fun q => decide (robot.bounding_box.Intersects q.bounding_box)) then
      try_place env cands placed (k + 1) fuel
    else some robot

/-- Body of `initialize_robots`: place `n` robots one at a time, assigning
each accepted robot the direction index `movement[Math.floor(random * 4)]`
drawn from the stream `rands`. -/
def init_robots_aux (env : MathEnv) (cands : ℕ → ℕ → ℚ × ℚ) (rands : ℕ → ℚ)
    (fuel : ℕ) : ℕ → ℕ → List cube_robot → Option (List cube_robot)
  | _, 0, acc => some acc
  | i, n + 1, acc =>
    match try_place env (cands i) acc 0 fuel with
    | none => none
    | some robot =>
      let robot := { robot with index := movement.getD (Int.toNat (Rat.floor (rands i * 4))) 0 }
      init_robots_aux env cands rands fuel (i + 1) n (acc ++ [robot])

def initialize_robots (env : MathEnv) (cands : ℕ → ℕ → ℚ × ℚ) (rands : ℕ → ℚ)
    (fuel n : ℕ) : Option (List cube_robot) :=
  init_robots_aux env cands rands fuel 0 n []

/-- Modelled from the spec: the JavaScript numeric coercion applied to the
`num_robots` URL-parameter string by the loop bound `i < num_robots` is
language semantics not present in this repository; a digit-only string
denotes its decimal value and any other non-empty string coerces to NaN
(`none`), making every comparison false. -/
def jsToNumber (s : String) : Option ℕ := s.toNat?

/-- The body count constructed by `init_engine`: `url_params.get('num_robots')
|| 1` keeps any non-empty string (JavaScript truthiness), and the placement
loop `for (let i = 0; i < num_robots; i++)` then runs `toNumber(num_robots)`
times, which is zero when the coercion yields NaN. -/
def robots_at_start (p : Option String) : ℕ :=
  match p with
  | none => 1
  | some s =>
    if s = "" then 1
    else
      match jsToNumber s with
      | none => 0
      | some k => k

/-- Projection of the kinematic fields the collision pass must not touch:
position, rotation, angular velocity, translational velocity of the cube. -/
def kinematic_state (r : cube_robot) : Vec3 × Vec3 × Vec3 × Vec3 :=
  (r.cube_position, r.cube_rotation, r.angular_velocity, r.translational_velocity)

/-- A concrete instantiation of the abstract angle constants and
trigonometric functions, used to evaluate the engine on closed inputs. -/
def sampleEnv : MathEnv :=
  { deg45 := 1, deg90 := 2, sin := fun _ => 7/10, cos := fun _ => 7/10 }

/-- Slider values 50 / 50, giving piston force 0.5 and mass 0.05. -/
def sampleInput : FrameInput :=
  { random := 0, piston_output_value := 50, mass_value := 50 }

def sampleRobot : cube_robot := cube_robot.init sampleEnv 0 (13/10) 0

/-- Three in-bounds robots in a chain: A∩B and B∩C intersect, A∩C do not. -/
def chainA : cube_robot := { cube_robot.init sampleEnv 0 (13/10) 0 with index := 1 }

def chainB : cube_robot := { cube_robot.init sampleEnv (3/2) (13/10) 0 with index := 1 }

def chainC : cube_robot := { cube_robot.init sampleEnv 3 (13/10) 0 with index := 1 }

def pairB : cube_robot := { chainB with index := 3 }

/-- A robot whose stored world position lies beyond the +20 boundary on x. -/
def outRobot : cube_robot :=
  { sampleRobot with position_in_world := ⟨25, 0, 0⟩, index := 1 }

/-- A state inside the tipping phase on both primary axes (rotation magnitude
1 against threshold 1/2), far below its landing threshold. -/
def tipState : cube_robot :=
  { cube_robot.init sampleEnv 0 0 0 with
    cube_rotation := ⟨1, 0, 1⟩, tipping_point_angle := 1/2, full_rotation := 100 }

/-- Zero piston force, slider mass 1000 (body mass 1). -/
def tipInput : FrameInput :=
  { random := 0, piston_output_value := 0, mass_value := 1000 }

/-- A robot whose landing threshold is 0, so any frame ends in a landing. -/
def landState : cube_robot := { cube_robot.init sampleEnv 0 0 0 with full_rotation := 0 }

/-- Same velocities and physics inputs as `sampleRobot` but a different pose. -/
def poseRobot : cube_robot :=
  { sampleRobot with cube_rotation := ⟨1, 2, 3⟩, cube_position := ⟨4, 5, 6⟩ }

def c7cands : ℕ → ℕ → ℚ × ℚ := fun i _ => if i = 0 then (0, 0) else (1, 1)

def c7rands : ℕ → ℚ := fun _ => 0

def c7expected : List cube_robot :=
  [{ cube_robot.init sampleEnv (0 * 36 - 18) (13/10) (0 * 36 - 18) with index := 1 },
   { cube_robot.init sampleEnv (1 * 36 - 18) (13/10) (1 * 36 - 18) with index := 1 }]

def abc_param : String := "abc"

def five_param : String := "5"

def empty_param : String := ""

def sampleActs : List EngineAction :=
  [EngineAction.collide, EngineAction.moveAll fun _ => sampleInput]

@[simp] theorem update_bounding_box_rotation (r : cube_robot) :
    (update_bounding_box r).cube_rotation = r.cube_rotation := rfl

@[simp] theorem update_bounding_box_position (r : cube_robot) :
    (update_bounding_box r).cube_position = r.cube_position := rfl

@[simp] theorem update_bounding_box_av (r : cube_robot) :
    (update_bounding_box r).angular_velocity = r.angular_velocity := rfl

@[simp] theorem update_bounding_box_tv (r : cube_robot) :
    (update_bounding_box r).translational_velocity = r.translational_velocity := rfl

@[simp] theorem update_bounding_box_tip (r : cube_robot) :
    (update_bounding_box r).tipping_point_angle = r.tipping_point_angle := rfl

@[simp] theorem update_bounding_box_full (r : cube_robot) :
    (update_bounding_box r).full_rotation = r.full_rotation := rfl

@[simp] theorem update_bounding_box_index (r : cube_robot) :
    (update_bounding_box r).index = r.index := rfl

@[simp] theorem calculate_physics_index (env : MathEnv) (inp : FrameInput) (r : cube_robot) :
    (calculate_physics env inp r).index = r.index := rfl

@[simp] theorem integrate_away_index (r : cube_robot) :
    (integrate_away r).index = r.index := rfl

@[simp] theorem integrate_closer_index (r : cube_robot) :
    (integrate_closer r).index = r.index := rfl

@[simp] theorem integrate_left_index (r : cube_robot) :
    (integrate_left r).index = r.index := rfl

@[simp] theorem integrate_right_index (r : cube_robot) :
    (integrate_right r).index = r.index := rfl

@[simp] theorem piston_step_away_index (r : cube_robot) :
    (piston_step_away r).index = r.index := by
  unfold piston_step_away; split <;> rfl

@[simp] theorem piston_step_closer_index (r : cube_robot) :
    (piston_step_closer r).index = r.index := by
  unfold piston_step_closer; split <;> rfl

@[simp] theorem piston_step_left_index (r : cube_robot) :
    (piston_step_left r).index = r.index := by
  unfold piston_step_left; split <;> rfl

@[simp] theorem piston_step_right_index (r : cube_robot) :
    (piston_step_right r).index = r.index := by
  unfold piston_step_right; split <;> rfl

@[simp] theorem tipping_step_away_index (r : cube_robot) :
    (tipping_step_away r).index = r.index := by
  unfold tipping_step_away; split <;> rfl

@[simp] theorem tipping_step_closer_index (r : cube_robot) :
    (tipping_step_closer r).index = r.index := by
  unfold tipping_step_closer; split <;> rfl

@[simp] theorem tipping_step_left_index (r : cube_robot) :
    (tipping_step_left r).index = r.index := by
  unfold tipping_step_left; split <;> rfl

@[simp] theorem tipping_step_right_index (r : cube_robot) :
    (tipping_step_right r).index = r.index := by
  unfold tipping_step_right; split <;> rfl

@[simp] theorem landing_step_x_index (r : cube_robot) :
    (landing_step_x r).index = r.index := by
  unfold landing_step_x; split <;> rfl

@[simp] theorem landing_step_z_index (r : cube_robot) :
    (landing_step_z r).index = r.index := by
  unfold landing_step_z; split <;> rfl

@[simp] theorem world_sync_index (r : cube_robot) :
    (world_sync r).index = r.index := rfl

@[simp] theorem move_away_index (env : MathEnv) (inp : FrameInput) (r : cube_robot) :
    (move_away env inp r).index = r.index := by
  simp [move_away, move_away_core]

@[simp] theorem move_closer_index (env : MathEnv) (inp : FrameInput) (r : cube_robot) :
    (move_closer env inp r).index = r.index := by
  simp [move_closer, move_closer_core]

@[simp] theorem move_left_index (env : MathEnv) (inp : FrameInput) (r : cube_robot) :
    (move_left env inp r).index = r.index := by
  simp [move_left, move_left_core]

@[simp] theorem move_right_index (env : MathEnv) (inp : FrameInput) (r : cube_robot) :
    (move_right env inp r).index = r.index := by
  simp [move_right, move_right_core]

@[simp] theorem dispatch_index (env : MathEnv) (inp : FrameInput) (r : cube_robot) :
    (dispatch env inp r).index = r.index := by
  unfold dispatch; split_ifs <;> simp

@[simp] theorem update_piston_index (r : cube_robot) :
    (update_piston r).index = r.index := by
  unfold update_piston; split_ifs <;> rfl

@[simp] theorem update_piston_piw (r : cube_robot) :
    (update_piston r).position_in_world = r.position_in_world := by
  unfold update_piston; split_ifs <;> rfl

@[simp] theorem update_robot_index_piw (r : cube_robot) :
    (update_robot_index r).position_in_world = r.position_in_world := by
  unfold update_robot_index; split_ifs <;> rfl

@[simp] theorem out_of_bounds_update_piston (r : cube_robot) :
    out_of_bounds (update_piston r) ↔ out_of_bounds r := by
  unfold out_of_bounds; rw [update_piston_piw]

@[simp] theorem out_of_bounds_update_robot_index (r : cube_robot) :
    out_of_bounds (update_robot_index r) ↔ out_of_bounds r := by
  unfold out_of_bounds; rw [update_robot_index_piw]

theorem update_robot_index_legal {r : cube_robot} (h : legal_index r.index) :
    legal_index (update_robot_index r).index := by
  unfold legal_index at h ⊢
  unfold update_robot_index
  rcases h with h | h | h | h <;> simp [h]

@[simp] theorem kin_update_piston (r : cube_robot) :
    kinematic_state (update_piston r) = kinematic_state r := by
  unfold update_piston kinematic_state; split_ifs <;> rfl

@[simp] theorem kin_update_robot_index (r : cube_robot) :
    kinematic_state (update_robot_index r) = kinematic_state r := by
  unfold update_robot_index kinematic_state; split_ifs <;> rfl

@[simp] theorem kin_boundary_step (r : cube_robot) :
    kinematic_state (boundary_step r) = kinematic_state r := by
  unfold boundary_step; split <;> simp

theorem kin_collide_pair (a b : cube_robot) :
    kinematic_state (collide_pair a b).1 = kinematic_state a ∧
    kinematic_state (collide_pair a b).2 = kinematic_state b := by
  unfold collide_pair; split <;> simp

theorem kin_inner_loop (a : cube_robot) (l : List cube_robot) :
    kinematic_state (inner_loop a l).1 = kinematic_state a ∧
    (inner_loop a l).2.map kinematic_state = l.map kinematic_state := by
  induction l generalizing a with
  | nil => exact ⟨rfl, rfl⟩
  | cons b tl ih =>
    simp only [inner_loop, List.map_cons]
    constructor
    · rw [(ih (collide_pair a b).1).1, (kin_collide_pair a b).1]
    · rw [(kin_collide_pair a b).2, (ih (collide_pair a b).1).2]

theorem kin_collision_detection_aux (n : ℕ) (l : List cube_robot) :
    (collision_detection_aux n l).map kinematic_state = l.map kinematic_state := by
  induction n generalizing l with
  | zero => rfl
  | succ n ih =>
    cases l with
    | nil => rfl
    | cons a tl =>
      simp only [collision_detection_aux, List.map_cons]
      rw [ih, (kin_inner_loop (boundary_step a) tl).2,
        (kin_inner_loop (boundary_step a) tl).1, kin_boundary_step]

theorem legal_collide_pair {a b : cube_robot} (ha : legal_index a.index)
    (hb : legal_index b.index) :
    legal_index (collide_pair a b).1.index ∧ legal_index (collide_pair a b).2.index := by
  unfold collide_pair; split
  · constructor <;> simp [update_robot_index_legal, ha, hb]
  · exact ⟨ha, hb⟩

theorem legal_boundary_step {r : cube_robot} (h : legal_index r.index) :
    legal_index (boundary_step r).index := by
  unfold boundary_step; split
  · simp [update_robot_index_legal, h]
  · exact h

theorem legal_inner_loop {a : cube_robot} {l : List cube_robot}
    (ha : legal_index a.index) (hl : good_indices l) :
    legal_index (inner_loop a l).1.index ∧ good_indices (inner_loop a l).2 := by
  induction l generalizing a with
  | nil => exact ⟨ha, hl⟩
  | cons b tl ih =>
    have hb : legal_index b.index := hl b (by simp)
    have htl : good_indices tl := fun r hr => hl r (by simp [hr])
    have hp := legal_collide_pair ha hb
    have hq := ih hp.1 htl
    refine ⟨hq.1, ?_⟩
    intro r hr
    simp only [inner_loop, List.mem_cons] at hr
    rcases hr with hr | hr
    · exact hr ▸ hp.2
    · exact hq.2 r hr

theorem good_collision_detection_aux (n : ℕ) {l : List cube_robot}
    (h : good_indices l) : good_indices (collision_detection_aux n l) := by
  induction n generalizing l with
  | zero => exact h
  | succ n ih =>
    cases l with
    | nil => exact h
    | cons a tl =>
      have ha : legal_index a.index := h a (by simp)
      have htl : good_indices tl := fun r hr => h r (by simp [hr])
      have hq := legal_inner_loop (legal_boundary_step ha) htl
      intro r hr
      simp only [collision_detection_aux, List.mem_cons] at hr
      rcases hr with hr | hr
      · exact hr ▸ hq.1
      · exact ih hq.2 r hr

theorem good_collision_detection {l : List cube_robot} (h : good_indices l) :
    good_indices (collision_detection l) :=
  good_collision_detection_aux l.length h

theorem good_assign_aux (env : MathEnv) (inps : ℕ → FrameInput) (i : ℕ)
    {l : List cube_robot} (h : good_indices l) :
    good_indices (assign_aux env inps i l) := by
  induction l generalizing i with
  | nil => exact h
  | cons a tl ih =>
    intro r hr
    simp only [assign_aux, List.mem_cons] at hr
    rcases hr with hr | hr
    · subst hr; simpa using h a (by simp)
    · exact ih (i + 1) (fun q hq => h q (by simp [hq])) r hr

theorem good_run_action (env : MathEnv) {l : List cube_robot} (a : EngineAction)
    (h : good_indices l) : good_indices (run_action env l a) := by
  cases a with
  | collide => exact good_collision_detection h
  | moveAll inps => exact good_assign_aux env inps 0 h

theorem landing_step_x_spec {r : cube_robot} (h : r.full_rotation ≤ |r.cube_rotation.x|) :
    (landing_step_x r).angular_velocity = Vec3.zero ∧
    (landing_step_x r).translational_velocity = Vec3.zero ∧
    (landing_step_x r).cube_rotation.x = 0 := by
  unfold landing_step_x
  rw [if_pos h]
  exact ⟨rfl, rfl, rfl⟩

theorem landing_step_z_spec {r : cube_robot} (h : r.full_rotation ≤ |r.cube_rotation.z|) :
    (landing_step_z r).angular_velocity = Vec3.zero ∧
    (landing_step_z r).translational_velocity = Vec3.zero ∧
    (landing_step_z r).cube_rotation.z = 0 := by
  unfold landing_step_z
  rw [if_pos h]
  exact ⟨rfl, rfl, rfl⟩

@[ext] theorem Vec3.ext {a b : Vec3} (hx : a.x = b.x) (hy : a.y = b.y)
    (hz : a.z = b.z) : a = b := by
  cases a; cases b; simp_all

/-- C5: for every robot whose direction index is initially in {1,2,3,4},
after any finite sequence of collision passes and movement dispatches (any
number of frames) every direction index remains in {1,2,3,4}. -/
theorem direction_index_always_legal (env : MathEnv) (acts : List EngineAction)
    (l : List cube_robot) (h : good_indices l) :
    good_indices (run_actions env acts l) := by
  induction acts generalizing l with
  | nil => exact h
  | cons a rest ih => exact ih (run_action env l a) (good_run_action env a h)

theorem direction_index_always_legal_witness :
    good_indices [chainA] ∧ good_indices (run_actions sampleEnv sampleActs [chainA]) :=
  ⟨by with_unfolding_all decide, direction_index_always_legal sampleEnv sampleActs [chainA] (by with_unfolding_all decide)⟩

/-- C6 as stated is false when the out-of-bounds robot also collides: here
`outRobot` is beyond the +20 boundary, its box intersects `chainB`, and one
pass flips it at the boundary check and again at the pair check, so its
index ends unchanged. -/
theorem boundary_flip_cancelled :
    out_of_bounds outRobot ∧
    outRobot.bounding_box.Intersects chainB.bounding_box ∧
    outRobot.index = 1 ∧
    (collision_detection [outRobot, chainB]).map (fun r => r.index) = [1, 2] := by
  with_unfolding_all decide

/-- C6 amended: a collision pass never modifies any robot's cube position,
rotation or velocities (boundary violations are tolerated, never clamped),
and a robot whose stored world position exceeds the ±20 boundary receives
the flip-and-resync at its boundary check; when no pair event also involves
it in the pass (e.g. a lone robot), its state after the pass is exactly the
direction flip followed by the piston resynchronisation. -/
theorem boundary_flip_no_clamp :
    (∀ l : List cube_robot,
        (collision_detection l).map kinematic_state = l.map kinematic_state) ∧
    (∀ r : cube_robot, out_of_bounds r →
        collision_detection [r] = [update_piston (update_robot_index r)]) := by
  constructor
  · intro l; exact kin_collision_detection_aux l.length l
  · intro r h
    simp [collision_detection, collision_detection_aux, inner_loop, boundary_step, h]

theorem boundary_flip_no_clamp_witness :
    out_of_bounds outRobot ∧
    collision_detection [outRobot] = [update_piston (update_robot_index outRobot)] :=
  ⟨by with_unfolding_all decide, boundary_flip_no_clamp.2 outRobot (by with_unfolding_all decide)⟩

/-- C2: in every movement variant, when the primary rotation magnitude has
reached the full-rotation threshold (90°) at the landing check of a frame,
the frame ends with zero angular velocity, zero translational velocity and
the primary rotation axis reset to exactly 0. -/
theorem landing_resets_state (env : MathEnv) (inp : FrameInput) (r : cube_robot) :
    ((move_away_core env inp r).full_rotation ≤ |(move_away_core env inp r).cube_rotation.x| →
       (move_away env inp r).angular_velocity = Vec3.zero ∧
       (move_away env inp r).translational_velocity = Vec3.zero ∧
       (move_away env inp r).cube_rotation.x = 0) ∧
    ((move_closer_core env inp r).full_rotation ≤ |(move_closer_core env inp r).cube_rotation.x| →
       (move_closer env inp r).angular_velocity = Vec3.zero ∧
       (move_closer env inp r).translational_velocity = Vec3.zero ∧
       (move_closer env inp r).cube_rotation.x = 0) ∧
    ((move_left_core env inp r).full_rotation ≤ |(move_left_core env inp r).cube_rotation.z| →
       (move_left env inp r).angular_velocity = Vec3.zero ∧
       (move_left env inp r).translational_velocity = Vec3.zero ∧
       (move_left env inp r).cube_rotation.z = 0) ∧
    ((move_right_core env inp r).full_rotation ≤ |(move_right_core env inp r).cube_rotation.z| →
       (move_right env inp r).angular_velocity = Vec3.zero ∧
       (move_right env inp r).translational_velocity = Vec3.zero ∧
       (move_right env inp r).cube_rotation.z = 0) := by
  refine ⟨fun h => ?_, fun h => ?_, fun h => ?_, fun h => ?_⟩
  · exact (landing_step_x_spec h)
  · exact (landing_step_x_spec h)
  · exact (landing_step_z_spec h)
  · exact (landing_step_z_spec h)

theorem landing_resets_state_witness :
    ((move_away_core sampleEnv sampleInput landState).full_rotation ≤
       |(move_away_core sampleEnv sampleInput landState).cube_rotation.x|) ∧
    ((move_away sampleEnv sampleInput landState).angular_velocity = Vec3.zero ∧
     (move_away sampleEnv sampleInput landState).translational_velocity = Vec3.zero ∧
     (move_away sampleEnv sampleInput landState).cube_rotation.x = 0) :=
  ⟨by with_unfolding_all decide, (landing_resets_state sampleEnv sampleInput landState).1 (by with_unfolding_all decide)⟩

/-- C10: the velocity increments of `_calculate_physics` are independent of
the body's pose: two states agreeing on the stored velocities and the fixed
physical constants, but with arbitrary rotations and positions, produce
identical angular and translational velocities (the gravity torque computed
from the live tilt is stored but never added to any velocity). -/
theorem physics_pose_independent (env : MathEnv) (inp : FrameInput) (r₁ r₂ : cube_robot)
    (hav : r₁.angular_velocity = r₂.angular_velocity)
    (htv : r₁.translational_velocity = r₂.translational_velocity)
    (hangle : r₁.angle = r₂.angle)
    (hard : r₁.axis_rotation_distance = r₂.axis_rotation_distance)
    (hsize : r₁.robot_size.x = r₂.robot_size.x)
    (hdt : r₁.time_step = r₂.time_step) :
    (calculate_physics env inp r₁).angular_velocity =
      (calculate_physics env inp r₂).angular_velocity ∧
    (calculate_physics env inp r₁).translational_velocity =
      (calculate_physics env inp r₂).translational_velocity := by
  unfold calculate_physics
  constructor <;>
    simp [Vec3.smul, Vec3.divScalar, Vec3.add_def, hav, htv, hangle, hard, hsize, hdt]

theorem physics_pose_independent_witness :
    (sampleRobot.cube_rotation ≠ poseRobot.cube_rotation ∧
     sampleRobot.cube_position ≠ poseRobot.cube_position) ∧
    ((calculate_physics sampleEnv sampleInput sampleRobot).angular_velocity =
       (calculate_physics sampleEnv sampleInput poseRobot).angular_velocity ∧
     (calculate_physics sampleEnv sampleInput sampleRobot).translational_velocity =
       (calculate_physics sampleEnv sampleInput poseRobot).translational_velocity) :=
  ⟨⟨by with_unfolding_all decide, by with_unfolding_all decide⟩,
   physics_pose_independent sampleEnv sampleInput sampleRobot poseRobot
     rfl rfl rfl rfl rfl rfl⟩

/-- C9: both bounding-box recomputations produce the axis-aligned box equal
to the current position plus/minus the fixed half-extents `robot_size / 2`
(hence `min ≤ max` component-wise when the size is nonnegative), independent
of the body's current rotation. -/
theorem bounding_box_from_position (r : cube_robot) :
    ((update_bounding_box r).bounding_box.min =
        ⟨r.cube_position.x - r.robot_size.x / 2, r.cube_position.y - r.robot_size.y / 2,
         r.cube_position.z - r.robot_size.z / 2⟩ ∧
     (update_bounding_box r).bounding_box.max =
        ⟨r.cube_position.x + r.robot_size.x / 2, r.cube_position.y + r.robot_size.y / 2,
         r.cube_position.z + r.robot_size.z / 2⟩) ∧
    ((update_custom_bounding_box r).custom_bounding_box.min =
        ⟨r.cube_position.x - r.robot_size.x / 2, r.cube_position.y - r.robot_size.y / 2,
         r.cube_position.z - r.robot_size.z / 2⟩ ∧
     (update_custom_bounding_box r).custom_bounding_box.max =
        ⟨r.cube_position.x + r.robot_size.x / 2, r.cube_position.y + r.robot_size.y / 2,
         r.cube_position.z + r.robot_size.z / 2⟩) ∧
    (0 ≤ r.robot_size.x ∧ 0 ≤ r.robot_size.y ∧ 0 ≤ r.robot_size.z →
      ((update_bounding_box r).bounding_box.min.x ≤ (update_bounding_box r).bounding_box.max.x ∧
       (update_bounding_box r).bounding_box.min.y ≤ (update_bounding_box r).bounding_box.max.y ∧
       (update_bounding_box r).bounding_box.min.z ≤ (update_bounding_box r).bounding_box.max.z) ∧
      ((update_custom_bounding_box r).custom_bounding_box.min.x ≤
         (update_custom_bounding_box r).custom_bounding_box.max.x ∧
       (update_custom_bounding_box r).custom_bounding_box.min.y ≤
         (update_custom_bounding_box r).custom_bounding_box.max.y ∧
       (update_custom_bounding_box r).custom_bounding_box.min.z ≤
         (update_custom_bounding_box r).custom_bounding_box.max.z)) ∧
    (∀ v : Vec3,
      (update_bounding_box { r with cube_rotation := v }).bounding_box =
        (update_bounding_box r).bounding_box ∧
      (update_custom_bounding_box { r with cube_rotation := v }).custom_bounding_box =
        (update_custom_bounding_box r).custom_bounding_box) := by
  refine ⟨⟨?_, ?_⟩, ⟨rfl, rfl⟩, fun hs => ⟨⟨?_, ?_, ?_⟩, ?_, ?_, ?_⟩, fun v => ⟨rfl, rfl⟩⟩
  · apply Vec3.ext <;> simp [update_bounding_box, box_from_object, Vec3.smul] <;> ring
  · apply Vec3.ext <;> simp [update_bounding_box, box_from_object, Vec3.smul] <;> ring
  · simp only [update_bounding_box, box_from_object, Vec3.smul]
    linarith [hs.1]
  · simp only [update_bounding_box, box_from_object, Vec3.smul]
    linarith [hs.2.1]
  · simp only [update_bounding_box, box_from_object, Vec3.smul]
    linarith [hs.2.2]
  · simp only [update_custom_bounding_box]
    linarith [hs.1]
  · simp only [update_custom_bounding_box]
    linarith [hs.2.1]
  · simp only [update_custom_bounding_box]
    linarith [hs.2.2]

theorem bounding_box_from_position_witness :
    (0 ≤ sampleRobot.robot_size.x ∧ 0 ≤ sampleRobot.robot_size.y ∧
       0 ≤ sampleRobot.robot_size.z) ∧
    (((update_bounding_box sampleRobot).bounding_box.min.x ≤
        (update_bounding_box sampleRobot).bounding_box.max.x ∧
      (update_bounding_box sampleRobot).bounding_box.min.y ≤
        (update_bounding_box sampleRobot).bounding_box.max.y ∧
      (update_bounding_box sampleRobot).bounding_box.min.z ≤
        (update_bounding_box sampleRobot).bounding_box.max.z) ∧
     ((update_custom_bounding_box sampleRobot).custom_bounding_box.min.x ≤
        (update_custom_bounding_box sampleRobot).custom_bounding_box.max.x ∧
      (update_custom_bounding_box sampleRobot).custom_bounding_box.min.y ≤
        (update_custom_bounding_box sampleRobot).custom_bounding_box.max.y ∧
      (update_custom_bounding_box sampleRobot).custom_bounding_box.min.z ≤
        (update_custom_bounding_box sampleRobot).custom_bounding_box.max.z)) :=
  ⟨by with_unfolding_all decide, (bounding_box_from_position sampleRobot).2.2.1 (by with_unfolding_all decide)⟩

/-- C4 as stated is false: in the tipping phase `move_left` adds the gravity
contribution to the angular velocity (making its y component nonzero) yet the
rotation does not advance at all, because `move_left` rotates by the x
component, which the gravity vector (0, 98, 0) never augments. -/
theorem tipping_left_ignores_gravity :
    tipState.tipping_point_angle ≤ |tipState.cube_rotation.z| ∧
    (move_left sampleEnv tipInput tipState).angular_velocity.y ≠ 0 ∧
    (move_left sampleEnv tipInput tipState).cube_rotation.z = tipState.cube_rotation.z := by
  with_unfolding_all decide

/-- C4 amended: in the tipping phase every variant adds `gravity · dt` to the
angular velocity; `move_away` / `move_closer` then rotate by the
gravity-augmented y component, while `move_left` / `move_right` rotate by
the x component, whose value the gravity vector (0, 98, 0) leaves unchanged,
so their rotation increment is unaffected by the gravity contribution.  All
variants translate by the unmodified linear velocity. -/
theorem tipping_phase_gravity (r : cube_robot)
    (hg : r.gravity = ⟨0, GRAVITY_ACCELERATION * 10, 0⟩) :
    (r.tipping_point_angle ≤ |r.cube_rotation.x| →
       (tipping_step_away r).angular_velocity = r.angular_velocity + r.gravity.smul r.time_step ∧
       (tipping_step_away r).cube_rotation.x =
         r.cube_rotation.x -
           (r.angular_velocity.y + GRAVITY_ACCELERATION * 10 * r.time_step) * r.time_step ∧
       (tipping_step_away r).cube_position.z =
         r.cube_position.z - r.translational_velocity.z) ∧
    (r.tipping_point_angle ≤ |r.cube_rotation.x| →
       (tipping_step_closer r).angular_velocity = r.angular_velocity + r.gravity.smul r.time_step ∧
       (tipping_step_closer r).cube_rotation.x =
         r.cube_rotation.x +
           (r.angular_velocity.y + GRAVITY_ACCELERATION * 10 * r.time_step) * r.time_step ∧
       (tipping_step_closer r).cube_position.z =
         r.cube_position.z + r.translational_velocity.z) ∧
    (r.tipping_point_angle ≤ |r.cube_rotation.z| →
       (tipping_step_left r).angular_velocity = r.angular_velocity + r.gravity.smul r.time_step ∧
       (tipping_step_left r).cube_rotation.z =
         r.cube_rotation.z + r.angular_velocity.x * r.time_step ∧
       (tipping_step_left r).cube_position.x =
         r.cube_position.x - r.translational_velocity.x) ∧
    (r.tipping_point_angle ≤ |r.cube_rotation.z| →
       (tipping_step_right r).angular_velocity = r.angular_velocity + r.gravity.smul r.time_step ∧
       (tipping_step_right r).cube_rotation.z =
         r.cube_rotation.z - r.angular_velocity.x * r.time_step ∧
       (tipping_step_right r).cube_position.x =
         r.cube_position.x + r.translational_velocity.x) := by
  refine ⟨fun h => ?_, fun h => ?_, fun h => ?_, fun h => ?_⟩
  · unfold tipping_step_away
    rw [if_pos h]
    refine ⟨rfl, ?_, rfl⟩
    simp [Vec3.add_def, Vec3.smul, hg]
  · unfold tipping_step_closer
    rw [if_pos h]
    refine ⟨rfl, ?_, rfl⟩
    simp [Vec3.add_def, Vec3.smul, hg]
  · unfold tipping_step_left
    rw [if_pos h]
    refine ⟨rfl, ?_, rfl⟩
    simp [Vec3.add_def, Vec3.smul, hg]
  · unfold tipping_step_right
    rw [if_pos h]
    refine ⟨rfl, ?_, rfl⟩
    simp [Vec3.add_def, Vec3.smul, hg]

theorem tipping_phase_gravity_witness :
    (tipState.gravity = ⟨0, GRAVITY_ACCELERATION * 10, 0⟩ ∧
     tipState.tipping_point_angle ≤ |tipState.cube_rotation.x| ∧
     tipState.tipping_point_angle ≤ |tipState.cube_rotation.z|) ∧
    (tipping_step_away tipState).angular_velocity =
      tipState.angular_velocity + tipState.gravity.smul tipState.time_step ∧
    (tipping_step_left tipState).cube_rotation.z =
      tipState.cube_rotation.z + tipState.angular_velocity.x * tipState.time_step :=
  ⟨by with_unfolding_all decide,
   ((tipping_phase_gravity tipState (by with_unfolding_all decide)).1 (by with_unfolding_all decide)).1,
   ((tipping_phase_gravity tipState (by with_unfolding_all decide)).2.2.1 (by with_unfolding_all decide)).2.1⟩

/-- C1 as stated is false for three robots in a chain: A and B's boxes
intersect, yet after one collision pass B's direction index is back to its
original value, because B is flipped twice (once against A, once against C). -/
theorem collision_chain_unflipped :
    chainA.bounding_box.Intersects chainB.bounding_box ∧
    chainB.index = 1 ∧
    (collision_detection [chainA, chainB, chainC]).map (fun r => r.index) = [2, 1, 2] := by
  with_unfolding_all decide

/-- C1 amended: each intersecting pair triggers a flip of both members at the
moment of its check (1↔2, 3↔4) with the piston resynchronised, but a robot
involved in an even number of such events in one pass ends with its original
index; for exactly two in-bounds robots with intersecting boxes, one pass
applies exactly one flip-and-resync to each, so indices 1 and 3 become 2 and
4. -/
theorem collision_two_robot_flip (a b : cube_robot)
    (ha : ¬ out_of_bounds a) (hb : ¬ out_of_bounds b)
    (hint : a.bounding_box.Intersects b.bounding_box) :
    collision_detection [a, b] =
      [update_piston (update_robot_index a), update_piston (update_robot_index b)] := by
  simp [collision_detection, collision_detection_aux, inner_loop, collide_pair,
    boundary_step, ha, hb, hint]

theorem collision_two_robot_flip_witness :
    (¬ out_of_bounds chainA ∧ ¬ out_of_bounds pairB ∧
     chainA.bounding_box.Intersects pairB.bounding_box ∧
     chainA.index = 1 ∧ pairB.index = 3) ∧
    collision_detection [chainA, pairB] =
      [update_piston (update_robot_index chainA), update_piston (update_robot_index pairB)] ∧
    (collision_detection [chainA, pairB]).map (fun r => r.index) = [2, 4] :=
  ⟨by with_unfolding_all decide,
   collision_two_robot_flip chainA pairB (by with_unfolding_all decide) (by with_unfolding_all decide) (by with_unfolding_all decide),
   by with_unfolding_all decide⟩

/-- C8 as stated is false: a non-empty unparseable `num_robots` value such as
"abc" survives the `|| 1` default (it is truthy), and the construction loop
bound coerces it to NaN, so 0 bodies are constructed instead of 1. -/
theorem robots_at_start_unparseable :
    robots_at_start (some abc_param) = 0 ∧ robots_at_start (some abc_param) ≠ 1 := by
  with_unfolding_all decide

/-- C8 amended: the start-up body count is the supplied value for a
digit-string parameter, defaults to 1 only when the parameter is unset or
the empty string, and is 0 when the parameter is non-empty and unparseable
as a number. -/
theorem robots_at_start_spec :
    robots_at_start none = 1 ∧
    robots_at_start (some empty_param) = 1 ∧
    (∀ s k, s ≠ "" → jsToNumber s = some k → robots_at_start (some s) = k) ∧
    (∀ s, s ≠ "" → jsToNumber s = none → robots_at_start (some s) = 0) := by
  refine ⟨rfl, by with_unfolding_all decide, ?_, ?_⟩
  · intro s k hs hk
    simp [robots_at_start, hs, hk]
  · intro s hs hn
    simp [robots_at_start, hs, hn]

@[simp] theorem calculate_physics_rotation (env : MathEnv) (inp : FrameInput) (r : cube_robot) :
    (calculate_physics env inp r).cube_rotation = r.cube_rotation := rfl

@[simp] theorem calculate_physics_time_step (env : MathEnv) (inp : FrameInput) (r : cube_robot) :
    (calculate_physics env inp r).time_step = r.time_step := rfl

@[simp] theorem calculate_physics_tip (env : MathEnv) (inp : FrameInput) (r : cube_robot) :
    (calculate_physics env inp r).tipping_point_angle = r.tipping_point_angle := rfl

@[simp] theorem calculate_physics_full (env : MathEnv) (inp : FrameInput) (r : cube_robot) :
    (calculate_physics env inp r).full_rotation = r.full_rotation := rfl

@[simp] theorem integrate_away_av (r : cube_robot) :
    (integrate_away r).angular_velocity = r.angular_velocity := rfl

@[simp] theorem integrate_away_tv (r : cube_robot) :
    (integrate_away r).translational_velocity = r.translational_velocity := rfl

@[simp] theorem integrate_away_tip (r : cube_robot) :
    (integrate_away r).tipping_point_angle = r.tipping_point_angle := rfl

@[simp] theorem integrate_away_full (r : cube_robot) :
    (integrate_away r).full_rotation = r.full_rotation := rfl

@[simp] theorem init_tip (env : MathEnv) (x y z : ℚ) :
    (cube_robot.init env x y z).tipping_point_angle = env.deg45 := rfl

@[simp] theorem init_full (env : MathEnv) (x y z : ℚ) :
    (cube_robot.init env x y z).full_rotation = env.deg90 := rfl

@[simp] theorem init_av (env : MathEnv) (x y z : ℚ) :
    (cube_robot.init env x y z).angular_velocity = Vec3.zero := rfl

@[simp] theorem init_tv (env : MathEnv) (x y z : ℚ) :
    (cube_robot.init env x y z).translational_velocity = Vec3.zero := rfl

@[simp] theorem init_rotation (env : MathEnv) (x y z : ℚ) :
    (cube_robot.init env x y z).cube_rotation = Vec3.zero := rfl

@[simp] theorem init_time_step (env : MathEnv) (x y z : ℚ) :
    (cube_robot.init env x y z).time_step = 1/360 := rfl

@[simp] theorem init_angle (env : MathEnv) (x y z : ℚ) :
    (cube_robot.init env x y z).angle = env.deg45 := rfl

@[simp] theorem init_ard (env : MathEnv) (x y z : ℚ) :
    (cube_robot.init env x y z).axis_rotation_distance = 2 / 2 / 100 := rfl

@[simp] theorem init_size_x (env : MathEnv) (x y z : ℚ) :
    (cube_robot.init env x y z).robot_size.x = 2 := rfl

@[simp] theorem piston_step_away_rotation (r : cube_robot) :
    (piston_step_away r).cube_rotation = r.cube_rotation := by
  unfold piston_step_away; split <;> rfl

@[simp] theorem piston_step_away_av (r : cube_robot) :
    (piston_step_away r).angular_velocity = r.angular_velocity := by
  unfold piston_step_away; split <;> rfl

@[simp] theorem piston_step_away_tv (r : cube_robot) :
    (piston_step_away r).translational_velocity = r.translational_velocity := by
  unfold piston_step_away; split <;> rfl

@[simp] theorem piston_step_away_tip (r : cube_robot) :
    (piston_step_away r).tipping_point_angle = r.tipping_point_angle := by
  unfold piston_step_away; split <;> rfl

@[simp] theorem piston_step_away_full (r : cube_robot) :
    (piston_step_away r).full_rotation = r.full_rotation := by
  unfold piston_step_away; split <;> rfl

@[simp] theorem world_sync_av (r : cube_robot) :
    (world_sync r).angular_velocity = r.angular_velocity := rfl

@[simp] theorem world_sync_tv (r : cube_robot) :
    (world_sync r).translational_velocity = r.translational_velocity := rfl

theorem tipping_step_away_skip {r : cube_robot}
    (h : |r.cube_rotation.x| < r.tipping_point_angle) : tipping_step_away r = r := by
  unfold tipping_step_away
  rw [if_neg (not_le.mpr h)]

theorem landing_step_x_skip {r : cube_robot}
    (h : |r.cube_rotation.x| < r.full_rotation) : landing_step_x r = r := by
  unfold landing_step_x
  rw [if_neg (not_le.mpr h)]

theorem move_away_subtipping (env : MathEnv) (inp : FrameInput) (r : cube_robot)
    (h1 : |(update_bounding_box (integrate_away (calculate_physics env inp r))).cube_rotation.x| <
        (update_bounding_box (integrate_away (calculate_physics env inp r))).tipping_point_angle)
    (h2 : |(update_bounding_box (integrate_away (calculate_physics env inp r))).cube_rotation.x| <
        (update_bounding_box (integrate_away (calculate_physics env inp r))).full_rotation) :
    (move_away env inp r).angular_velocity = (calculate_physics env inp r).angular_velocity ∧
    (move_away env inp r).translational_velocity =
      (calculate_physics env inp r).translational_velocity := by
  have htip : tipping_step_away (piston_step_away (update_bounding_box (integrate_away
      (calculate_physics env inp r)))) =
      piston_step_away (update_bounding_box (integrate_away (calculate_physics env inp r))) := by
    apply tipping_step_away_skip
    simpa using h1
  have hland : landing_step_x (piston_step_away (update_bounding_box (integrate_away
      (calculate_physics env inp r)))) =
      piston_step_away (update_bounding_box (integrate_away (calculate_physics env inp r))) := by
    apply landing_step_x_skip
    simpa using h2
  unfold move_away move_away_core
  rw [htip, hland]
  constructor <;> simp

/-- C3: starting a frame of `move_away` from the freshly constructed robot
(zero velocities, zero tilt) with slider values giving mass 0.05 and piston
force 0.5, the stored velocities change from zero by exactly acceleration
times the 1/360 time step, with angular acceleration
(force · momentArm · sin 45°) / ((1/6) · mass · (edge/100)²) and
translational acceleration (force · cos 45°) / mass, applied identically to
the x and z components, provided the integrated tilt stays below the
thresholds. -/
theorem move_away_first_frame (env : MathEnv) (inp : FrameInput) (x y z A T : ℚ)
    (hmass : inp.mass_value = 50) (hforce : inp.piston_output_value = 50)
    (hA : A = (1/2 * (1/100) * env.sin env.deg45) /
        ((1/6) * (1/20) * ((2/100) * (2/100))))
    (hT : T = (1/2 * env.cos env.deg45) / (1/20))
    (hsub : |A * (1/360) * (1/360)| < env.deg45)
    (h45 : env.deg45 ≤ env.deg90) :
    (move_away env inp (cube_robot.init env x y z)).angular_velocity =
      ⟨A * (1/360), 0, A * (1/360)⟩ ∧
    (move_away env inp (cube_robot.init env x y z)).translational_velocity =
      ⟨T * (1/360), 0, T * (1/360)⟩ := by
  have hav : (calculate_physics env inp (cube_robot.init env x y z)).angular_velocity =
      ⟨A * (1/360), 0, A * (1/360)⟩ := by
    subst hA
    apply Vec3.ext <;>
      simp [calculate_physics, Vec3.divScalar, Vec3.smul, Vec3.add_def,
        Vec3.zero, hmass, hforce] <;>
      field_simp <;> ring
  have htv : (calculate_physics env inp (cube_robot.init env x y z)).translational_velocity =
      ⟨T * (1/360), 0, T * (1/360)⟩ := by
    subst hT
    apply Vec3.ext <;>
      simp [calculate_physics, Vec3.divScalar, Vec3.smul, Vec3.add_def,
        Vec3.zero, hmass, hforce] <;>
      field_simp <;> ring
  have hrot : (update_bounding_box (integrate_away (calculate_physics env inp
      (cube_robot.init env x y z)))).cube_rotation.x = -(A * (1/360) * (1/360)) := by
    simp only [update_bounding_box_rotation]
    simp [integrate_away, hav, Vec3.zero]
  have ht : (update_bounding_box (integrate_away (calculate_physics env inp
      (cube_robot.init env x y z)))).tipping_point_angle = env.deg45 := by simp
  have hf : (update_bounding_box (integrate_away (calculate_physics env inp
      (cube_robot.init env x y z)))).full_rotation = env.deg90 := by simp
  have h1 : |(update_bounding_box (integrate_away (calculate_physics env inp
      (cube_robot.init env x y z)))).cube_rotation.x| <
      (update_bounding_box (integrate_away (calculate_physics env inp
      (cube_robot.init env x y z)))).tipping_point_angle := by
    rw [ht, hrot, abs_neg]
    exact hsub
  have h2 : |(update_bounding_box (integrate_away (calculate_physics env inp
      (cube_robot.init env x y z)))).cube_rotation.x| <
      (update_bounding_box (integrate_away (calculate_physics env inp
      (cube_robot.init env x y z)))).full_rotation := by
    rw [hf, hrot, abs_neg]
    exact lt_of_lt_of_le hsub h45
  obtain ⟨ha, hb⟩ := move_away_subtipping env inp (cube_robot.init env x y z) h1 h2
  exact ⟨ha.trans hav, hb.trans htv⟩

theorem move_away_first_frame_witness :
    (sampleInput.mass_value = 50 ∧ sampleInput.piston_output_value = 50 ∧
     (1050 : ℚ) = (1/2 * (1/100) * sampleEnv.sin sampleEnv.deg45) /
        ((1/6) * (1/20) * ((2/100) * (2/100))) ∧
     (7 : ℚ) = (1/2 * sampleEnv.cos sampleEnv.deg45) / (1/20) ∧
     |(1050 : ℚ) * (1/360) * (1/360)| < sampleEnv.deg45 ∧
     sampleEnv.deg45 ≤ sampleEnv.deg90) ∧
    (move_away sampleEnv sampleInput (cube_robot.init sampleEnv 0 (13/10) 0)).angular_velocity =
      ⟨1050 * (1/360), 0, 1050 * (1/360)⟩ ∧
    (move_away sampleEnv sampleInput
        (cube_robot.init sampleEnv 0 (13/10) 0)).translational_velocity =
      ⟨7 * (1/360), 0, 7 * (1/360)⟩ :=
  ⟨⟨rfl, rfl, by with_unfolding_all decide, by with_unfolding_all decide,
    by with_unfolding_all decide, by with_unfolding_all decide⟩,
   move_away_first_frame sampleEnv sampleInput 0 (13/10) 0 1050 7 rfl rfl
     (by with_unfolding_all decide) (by with_unfolding_all decide)
     (by with_unfolding_all decide) (by with_unfolding_all decide)⟩

theorem try_place_spec (env : MathEnv) (cands : ℕ → ℚ × ℚ) (placed : List cube_robot) :
    ∀ (fuel k : ℕ) (r : cube_robot), try_place env cands placed k fuel = some r →
      ∀ q ∈ placed, ¬ r.bounding_box.Intersects q.bounding_box := by
  intro fuel
  induction fuel with
  | zero => intro k r h; simp [try_place] at h
  | succ fuel ih =>
    intro k r h
    simp only [try_place] at h
    split at h
    · exact ih (k + 1) r h
    · rename_i hcond
      injection h with h
      subst h
      intro q hq
      simp only [List.any_eq_true, decide_eq_true_eq, not_exists, not_and] at hcond
      exact hcond q hq

theorem floor_index_legal {q : ℚ} (h0 : 0 ≤ q) (h1 : q < 1) :
    legal_index (movement.getD (Int.toNat (Rat.floor (q * 4))) 0) := by
  have hge : (0 : ℤ) ≤ Rat.floor (q * 4) := Rat.le_floor.mpr (by push_cast; linarith)
  have hlt : Rat.floor (q * 4) < 4 := by
    by_contra hc
    push_neg at hc
    have h4 : ((4 : ℤ) : ℚ) ≤ q * 4 := Rat.le_floor.mp hc
    push_cast at h4
    linarith
  have hk : Int.toNat (Rat.floor (q * 4)) < 4 := by omega
  set k := Int.toNat (Rat.floor (q * 4)) with hkdef
  interval_cases k <;> decide

theorem init_robots_aux_spec (env : MathEnv) (cands : ℕ → ℕ → ℚ × ℚ) (rands : ℕ → ℚ)
    (fuel : ℕ) (hrand : ∀ i, 0 ≤ rands i ∧ rands i < 1) :
    ∀ (n i : ℕ) (acc l : List cube_robot),
      init_robots_aux env cands rands fuel i n acc = some l →
      acc.Pairwise (fun a b => ¬ a.bounding_box.Intersects b.bounding_box) →
      good_indices acc →
      l.length = acc.length + n ∧
      l.Pairwise (fun a b => ¬ a.bounding_box.Intersects b.bounding_box) ∧
      good_indices l := by
  intro n
  induction n with
  | zero =>
    intro i acc l h hp hg
    simp only [init_robots_aux, Option.some.injEq] at h
    subst h
    exact ⟨by simp, hp, hg⟩
  | succ n ih =>
    intro i acc l h hp hg
    rw [init_robots_aux] at h
    cases htp : try_place env (cands i) acc 0 fuel with
    | none => rw [htp] at h; cases h
    | some robot =>
      rw [htp] at h
      have hni := try_place_spec env (cands i) acc fuel 0 robot htp
      have hp' : (acc ++ [{ robot with
          index := movement.getD (Int.toNat (Rat.floor (rands i * 4))) 0 }]).Pairwise
          (fun a b : cube_robot => ¬ a.bounding_box.Intersects b.bounding_box) := by
        rw [List.pairwise_append]
        refine ⟨hp, by simp, ?_⟩
        intro a ha b hb
        rw [List.mem_singleton] at hb
        subst hb
        intro hI
        exact hni a ha hI.symm
      have hg' : good_indices (acc ++ [{ robot with
          index := movement.getD (Int.toNat (Rat.floor (rands i * 4))) 0 }]) := by
        intro q hq
        rcases List.mem_append.mp hq with hq | hq
        · exact hg q hq
        · rw [List.mem_singleton] at hq
          subst hq
          simpa using floor_index_legal (hrand i).1 (hrand i).2
      obtain ⟨hl1, hl2, hl3⟩ := ih (i + 1) _ l h hp' hg'
      refine ⟨?_, hl2, hl3⟩
      simp only [List.length_append, List.length_singleton] at hl1
      omega

/-- C7: whenever `initialize_robots` succeeds in placing `n` robots (the
source retries without bound; success is modelled by a sufficient attempt
budget), it returns exactly `n` robots with pairwise non-intersecting
bounding boxes, and every robot's direction index, assigned as
`movement[Math.floor(random * 4)]` from a random value in [0, 1), lies in
{1, 2, 3, 4}. -/
theorem initialize_robots_spec (env : MathEnv) (cands : ℕ → ℕ → ℚ × ℚ)
    (rands : ℕ → ℚ) (fuel n : ℕ) (l : List cube_robot)
    (hrand : ∀ i, 0 ≤ rands i ∧ rands i < 1)
    (h : initialize_robots env cands rands fuel n = some l) :
    l.length = n ∧
    l.Pairwise (fun a b => ¬ a.bounding_box.Intersects b.bounding_box) ∧
    good_indices l := by
  have hmain := init_robots_aux_spec env cands rands fuel hrand n 0 [] l h
    List.Pairwise.nil (by intro r hr; cases hr)
  simpa using hmain

theorem initialize_robots_spec_witness :
    initialize_robots sampleEnv c7cands c7rands 1 2 = some c7expected ∧
    (c7expected.length = 2 ∧
     c7expected.Pairwise (fun a b => ¬ a.bounding_box.Intersects b.bounding_box) ∧
     good_indices c7expected) :=
  ⟨by with_unfolding_all decide,
   initialize_robots_spec sampleEnv c7cands c7rands 1 2 c7expected
     (fun _ => ⟨le_refl 0, by norm_num [c7rands]⟩) (by with_unfolding_all decide)⟩

theorem robots_at_start_spec_witness :
    (five_param ≠ "" ∧ jsToNumber five_param = some 5) ∧
    robots_at_start (some five_param) = 5 :=
  ⟨⟨by with_unfolding_all decide, by with_unfolding_all decide⟩,
   robots_at_start_spec.2.2.1 five_param 5 (by with_unfolding_all decide) (by with_unfolding_all decide)⟩

end PhysicsEngine
